import Mathlib

/-
Verification of the crawl-policy engine of the Web_Crawler repository.

The development shallowly embeds the crawl-rule engine
(src/crawlingrules.go: Rule, Group, findRule, Test, subdomain, Allowed,
randDelay, CrawlDelay), the Go constructors (src/crawler.go: New,
NewFromSettings and their default constants), and the C port of the
constructors (crawler.h / crawler.c: NewWebCrawler,
NewWebCrawlerFromSettings and the DEFAULT_* macros).

Modelling conventions:
* Go time.Duration is int64 nanoseconds; it is modelled as an integer and
  Duration.Milliseconds() — division by 10^6 truncating toward zero — as
  Int.tdiv, which has the same rounding behaviour as Go integer division.
* Go strings.HasPrefix is byte-prefix; on valid UTF-8 a string is a byte
  prefix of another exactly when it is a character-sequence prefix, so it
  is modelled by List.isPrefixOf on the character data.  Go len(string)
  counts bytes and is modelled by String.utf8ByteSize.
* rand.Int63n(n) is modelled by an explicit parameter rnd carrying the
  drawn value; its contract is 0 ≤ rnd < n.
* The float64 arithmetic in randDelay and CrawlDelay (1.5*v, 0.5*v,
  math.Max of two millisecond counts) is exact for all millisecond counts
  below 2^52, which covers every duration of interest by an astronomical
  margin; it is modelled by exact integer arithmetic (v, Int.tdiv v 2,
  and max).
* Mutexes are not modelled; the embedded operations are the sequential
  bodies of the Go methods.
-/

namespace Crawler

/-- Go time.Duration: int64 nanoseconds. -/
abbrev Duration := Int

/-- Go Duration.Milliseconds(): the duration as an integer millisecond
count, i.e. division by 10^6 truncating toward zero. -/
def Duration.msOf (d : Duration) : Int := Int.tdiv d 1000000

/-- Go strings.HasPrefix (byte prefix; equals character prefix on valid
UTF-8). -/
def hasPrefix (s pre : String) : Bool := pre.data.isPrefixOf s.data

/-- Go len on strings: the byte length. -/
def strLen (s : String) : Nat := s.utf8ByteSize

/-- A compiled wildcard matcher, abstracting regexp.Regexp: MatchString
is the field matchString, and the length of pattern.String() is the byte
length of the field src. -/
structure Pattern where
  matchString : String → Bool
  src : String

/-- One robots.txt directive (crawlingrules.go, type Rule). -/
structure Rule where
  path : String
  allow : Bool
  pattern : Option Pattern

/-- The rule set for one user agent on one domain
(crawlingrules.go, type Group). -/
structure Group where
  rules : List Rule
  agent : String
  crawlDelay : Duration

/-- The loop of Group.findRule: walks the rule list carrying the current
best match weight (prefixLen) and the current best rule (ret). -/
def findRuleAux (path : String) : List Rule → Nat → Option Rule → Option Rule
  | [], _, ret => ret
  | r :: rs, prefixLen, ret =>
    match r.pattern with
    | some p =>
      if p.matchString path then
        if strLen p.src > prefixLen then
          findRuleAux path rs (strLen p.src) (some r)
        else
          findRuleAux path rs prefixLen ret
      else
        findRuleAux path rs prefixLen ret
    | none =>
      if r.path = "/" ∧ prefixLen = 0 then
        findRuleAux path rs 1 (some r)
      else if hasPrefix path r.path then
        if strLen r.path > prefixLen then
          findRuleAux path rs (strLen r.path) (some r)
        else
          findRuleAux path rs prefixLen ret
      else
        findRuleAux path rs prefixLen ret

/-- Group.findRule (crawlingrules.go): the matching rule of greatest
weight, where a pattern rule that matches weighs the length of its
source, a literal rule that is a prefix of the path weighs the length of
its path, and a bare "/" literal weighs 1 and only applies while nothing
has matched yet. -/
def Group.findRule (g : Group) (path : String) : Option Rule :=
  findRuleAux path g.rules 0 none

/-- Group.Test (crawlingrules.go): the allow flag of the selected rule,
defaulting to allow when no rule is selected. -/
def Group.Test (g : Group) (path : String) : Bool :=
  match g.findRule path with
  | some r => r.allow
  | none => true

/-- A Go net/url URL, restricted to the components the engine reads:
hostname is Hostname() (host without port), path is Path, rawQuery is
RawQuery, and str stands for the full serialization String() (used only
as a cache key). -/
structure URL where
  hostname : String
  path : String
  rawQuery : String
  str : String

/-- Go URL.RequestURI() for URLs with empty Opaque, no ForceQuery and an
escape-free path: the path (or "/" when the path is empty), followed by
"?" and the raw query when a query is present. -/
def URL.requestURI (u : URL) : String :=
  let result := if u.path = "" then "/" else u.path
  if u.rawQuery = "" then result else result ++ "?" ++ u.rawQuery

/-- subdomain (crawlingrules.go): the link is in scope when its hostname
equals the base domain hostname or is empty. -/
def subdomain (domain link : URL) : Bool :=
  link.hostname == domain.hostname || link.hostname == ""

/-- Modelled from the spec: the visited-cache capability of §6
(set(domainKey, urlKey) and contains(domainKey, urlKey)); the repository
declares only the Cacheable interface, not an implementation.  A cache
is the list of recorded (domainKey, urlKey) pairs: set prepends a pair
and contains is membership. -/
abbrev Cache := List (String × String)

/-- Cacheable.Set. -/
def Cache.set (c : Cache) (domainKey urlKey : String) : Cache :=
  (domainKey, urlKey) :: c

/-- Cacheable.Contains. -/
def Cache.containsKey (c : Cache) (domainKey urlKey : String) : Bool :=
  c.contains (domainKey, urlKey)

/-- Per-domain policy state (crawlingrules.go, type Crawlingrules).
The rwMutex field is not modelled. -/
structure Crawlingrules where
  baseDomain : URL
  cache : Cache
  robotsGroups : Option Group
  fixedDelay : Duration
  lastDelay : Duration

/-- NewCrawlingRules (crawlingrules.go): robotsGroups unset, delays from
the argument and the zero value. -/
def NewCrawlingRules (baseDomain : URL) (cache : Cache)
    (fixedDelay : Duration) : Crawlingrules :=
  { baseDomain := baseDomain, cache := cache, robotsGroups := none,
    fixedDelay := fixedDelay, lastDelay := 0 }

/-- Crawlingrules.Allowed (crawlingrules.go).  Returns the decision and
the updated state: an already-recorded URL is rejected immediately;
otherwise the URL is recorded (the deferred cache.Set) and the decision
is the robots test on the request URI conjoined with the subdomain
check, or the subdomain check alone when no robots group is attached. -/
def Allowed (r : Crawlingrules) (u : URL) : Bool × Crawlingrules :=
  if r.cache.containsKey r.baseDomain.str u.str then
    (false, r)
  else
    let recorded : Crawlingrules :=
      { r with cache := r.cache.set r.baseDomain.str u.str }
    match r.robotsGroups with
    | some g => (g.Test u.requestURI && subdomain r.baseDomain u, recorded)
    | none => (subdomain r.baseDomain u, recorded)

/-- randDelay (crawlingrules.go).  value is the millisecond count passed
in; rnd is the value drawn by rand.Int63n(int64(max-min)), whose
contract is 0 ≤ rnd < value (the float computation of max-min is exactly
value for counts below 2^52).  int64(min) truncates 0.5*value toward
zero.  The result is the raw count (nanoseconds in Go's Duration). -/
def randDelay (value rnd : Int) : Duration :=
  if value = 0 then 0
  else rnd + Int.tdiv value 2

/-- Crawlingrules.CrawlDelay (crawlingrules.go).  All three inputs are
reduced to millisecond counts; the randomized fixed delay and the robots
crawl-delay are combined by max, then the observed last delay is applied
as a further max; the result is a whole number of milliseconds expressed
in nanoseconds.  math.Max on millisecond counts below 2^52 is exact and
is modelled by integer max. -/
def CrawlDelay (r : Crawlingrules) (rnd : Int) : Duration :=
  let delay : Duration :=
    match r.robotsGroups with
    | some g => g.crawlDelay
    | none => 0
  let randomDelay : Duration := randDelay (Duration.msOf r.fixedDelay) rnd * 1000000
  let baseDelay : Duration :=
    max (Duration.msOf randomDelay) (Duration.msOf delay) * 1000000
  max (Duration.msOf r.lastDelay) (Duration.msOf baseDelay) * 1000000

/-- The effective robots delay of a configuration: the attached group's
crawl-delay, or zero if no group is attached. -/
def robotsDelayOf (r : Crawlingrules) : Duration :=
  match r.robotsGroups with
  | some g => g.crawlDelay
  | none => 0

/-- crawler.go constant defaultFetchTimeout: 10 seconds in nanoseconds. -/
def defaultFetchTimeout : Duration := 10 * 1000000000

/-- crawler.go constant defaultCrawlTimeout: 30 seconds in nanoseconds. -/
def defaultCrawlTimeout : Duration := 30 * 1000000000

/-- crawler.go constant defaultPolitenessDelay: 500 milliseconds in
nanoseconds. -/
def defaultPolitenessDelay : Duration := 500 * 1000000

/-- crawler.go constant defaultDepth. -/
def defaultDepth : Int := 16

/-- crawler.go constant defaultConcurrency. -/
def defaultConcurrency : Int := 8

/-- crawler.go constant defaultUserAgent. -/
def defaultUserAgent : String :=
  "Mozilla/5.0 (compatible; Googlebot/2.1; +http://www.google.com/bot.html)"

/-- CrawlerSettings (crawler.go).  The Parser field (a capability
reference) carries no data relevant to the claims and is omitted. -/
structure CrawlerSettings where
  FetchTimeout : Duration
  CrawlTimeout : Duration
  Concurrency : Int
  MaxDepth : Int
  UserAgent : String
  PolitenessFixedDelay : Duration

/-- WebCrawler (crawler.go).  The logger is not modelled; the
linkFetcher built by fetcher.New(userAgent, parser, timeout) is modelled
by the two data arguments it receives. -/
structure WebCrawler where
  linkFetcherUserAgent : String
  linkFetcherTimeout : Duration
  settings : CrawlerSettings

/-- New (crawler.go).  The composite literal for the settings does not
mention MaxDepth, so it receives the Go zero value 0; UserAgent is the
caller's argument.  The constants defaultDepth and defaultUserAgent are
never referenced by New. -/
def New (userAgent : String) : WebCrawler :=
  let settings : CrawlerSettings :=
    { FetchTimeout := defaultFetchTimeout
      UserAgent := userAgent
      CrawlTimeout := defaultCrawlTimeout
      PolitenessFixedDelay := defaultPolitenessDelay
      Concurrency := defaultConcurrency
      MaxDepth := 0 }
  { linkFetcherUserAgent := userAgent
    linkFetcherTimeout := settings.FetchTimeout
    settings := settings }

/-- A Go runtime panic relevant to the constructors: dereferencing a nil
pointer. -/
inductive GoPanic where
  | nilPointerDereference

/-- NewFromSettings (crawler.go).  The settings argument is a pointer,
modelled as an Option; the body reads settings.UserAgent and
settings.FetchTimeout with no nil check, so a nil argument raises a
nil-pointer-dereference panic before any WebCrawler value exists,
modelled as the error outcome. -/
def NewFromSettings (settings : Option CrawlerSettings) :
    Except GoPanic WebCrawler :=
  match settings with
  | none => Except.error GoPanic.nilPointerDereference
  | some s =>
    Except.ok
      { linkFetcherUserAgent := s.UserAgent
        linkFetcherTimeout := s.FetchTimeout
        settings := s }

/-- crawler.h macro DEFAULT_FETCH_TIMEOUT_MS. -/
def DEFAULT_FETCH_TIMEOUT_MS : Int := 10000

/-- crawler.h macro DEFAULT_CRAWL_TIMEOUT_MS. -/
def DEFAULT_CRAWL_TIMEOUT_MS : Int := 30000

/-- crawler.h macro DEFAULT_POLITENESS_DELAY_MS. -/
def DEFAULT_POLITENESS_DELAY_MS : Int := 500

/-- crawler.h macro DEFAULT_DEPTH. -/
def DEFAULT_DEPTH : Int := 16

/-- crawler.h macro DEFAULT_CONCURRENCY. -/
def DEFAULT_CONCURRENCY : Int := 8

/-- crawler.h macro DEFAULT_USER_AGENT. -/
def DEFAULT_USER_AGENT : String :=
  "Mozilla/5.0 (compatible; Googlebot/2.1; +http://www.google.com/bot.html)"

/-- CrawlerSettings of the C port (crawler.h).  UserAgent is a char*
that may be NULL, modelled as an Option; the Parser pointer is
omitted. -/
structure CCrawlerSettings where
  FetchTimeoutMs : Int
  CrawlTimeoutMs : Int
  Concurrency : Int
  MaxDepth : Int
  UserAgent : Option String
  PolitenessFixedDelayMs : Int

/-- The LinkFetcher of the C port, reduced to the data
fetcher_new_link_fetcher receives. -/
structure CLinkFetcher where
  userAgent : String
  fetchTimeoutMs : Int

/-- WebCrawler of the C port (crawler.h). -/
structure CWebCrawler where
  linkFetcher : CLinkFetcher
  settings : CCrawlerSettings

/-- NewWebCrawlerFromSettings (crawler.c).  A NULL settings pointer is
rejected with an error message and a NULL return; otherwise the settings
are copied, the user agent falls back to DEFAULT_USER_AGENT when NULL,
and the link fetcher is built from the copied values.  Allocation
failures (malloc, strdup) are modelled as succeeding. -/
def NewWebCrawlerFromSettings (settings : Option CCrawlerSettings) :
    Option CWebCrawler :=
  match settings with
  | none => none
  | some s =>
    let ua : String :=
      match s.UserAgent with
      | some a => a
      | none => DEFAULT_USER_AGENT
    some
      { settings := { s with UserAgent := some ua }
        linkFetcher := { userAgent := ua, fetchTimeoutMs := s.FetchTimeoutMs } }

/-- NewWebCrawler (crawler.c): default settings — including
DEFAULT_DEPTH as MaxDepth — passed through NewWebCrawlerFromSettings. -/
def NewWebCrawler (userAgent : Option String) : Option CWebCrawler :=
  NewWebCrawlerFromSettings
    (some
      { FetchTimeoutMs := DEFAULT_FETCH_TIMEOUT_MS
        CrawlTimeoutMs := DEFAULT_CRAWL_TIMEOUT_MS
        Concurrency := DEFAULT_CONCURRENCY
        MaxDepth := DEFAULT_DEPTH
        UserAgent := userAgent
        PolitenessFixedDelayMs := DEFAULT_POLITENESS_DELAY_MS })

/-- Shorthand: a rule that matches the path, either by pattern match or
by literal prefix (the predicate underlying findRule's candidates,
ignoring weights). -/
def ruleMatches (r : Rule) (path : String) : Bool :=
  match r.pattern with
  | some p => p.matchString path
  | none => hasPrefix path r.path

/-- The weight findRule gives a matching rule: the byte length of the
pattern source for a pattern rule, of the literal path otherwise. -/
def ruleWeight (r : Rule) : Nat :=
  match r.pattern with
  | some p => strLen p.src
  | none => strLen r.path

/-- The bare catch-all rule: allow "/". -/
def catchAllRule : Rule := ⟨"/", true, none⟩

/-- A group holding exactly the given rules (agent and crawl-delay
irrelevant to matching). -/
def groupOf (rs : List Rule) : Group := ⟨rs, "", 0⟩

/-- An inert URL used where only delay fields matter. -/
def blankURL : URL := ⟨"", "", "", ""⟩

/-- Configuration refuting the untruncated delay floor: no robots group,
zero fixed delay, a last delay of half a millisecond. -/
def exC1 : Crawlingrules :=
  { baseDomain := blankURL, cache := [], robotsGroups := none,
    fixedDelay := 0, lastDelay := 500000 }

/-- Configuration exercising the millisecond delay floor: a robots group
with a 2 ms crawl-delay, a 500 ms fixed delay, a 700 ms last delay. -/
def exW1 : Crawlingrules :=
  { baseDomain := blankURL, cache := [], robotsGroups := some ⟨[], "", 2000000⟩,
    fixedDelay := 500000000, lastDelay := 700000000 }

/-- Configuration refuting the jitter bound: a positive fixed delay of
half a millisecond. -/
def exC8 : Crawlingrules :=
  { baseDomain := blankURL, cache := [], robotsGroups := none,
    fixedDelay := 500000, lastDelay := 0 }

/-- Configuration for the jitter bound at the default 500 ms fixed
delay. -/
def exW8 : Crawlingrules :=
  { baseDomain := blankURL, cache := [], robotsGroups := none,
    fixedDelay := 500000000, lastDelay := 0 }

/-- A URL of the base domain used by the dedup theorems. -/
def exU2 : URL := ⟨"example.com", "/page", "", "http://example.com/page"⟩

/-- Rule state for the dedup theorems: empty cache, no robots group. -/
def exR2 : Crawlingrules :=
  { baseDomain := ⟨"example.com", "", "", "http://example.com"⟩, cache := [],
    robotsGroups := none, fixedDelay := 0, lastDelay := 0 }

/-- A robots group with the single literal rule disallow "/a?". -/
def exG3 : Group := ⟨[⟨"/a?", false, none⟩], "", 0⟩

/-- A URL with a query string: path "/a", raw query "b". -/
def exU3 : URL := ⟨"example.com", "/a", "b", "http://example.com/a?b"⟩

/-- Rule state with the group exG3 attached. -/
def exR3 : Crawlingrules :=
  { baseDomain := ⟨"example.com", "", "", "http://example.com"⟩, cache := [],
    robotsGroups := some exG3, fixedDelay := 0, lastDelay := 0 }

/-- The two-rule group of the rule-precedence scenario. -/
def exG4 : Group := groupOf [⟨"/a", false, none⟩, ⟨"/a/b", true, none⟩]

/-- A group with one rule that never applies. -/
def exG9 : Group := groupOf [⟨"/private", false, none⟩]

end Crawler

namespace Crawler

lemma msOf_mul_cancel (x : Int) : Duration.msOf (x * 1000000) = x :=
  Int.mul_tdiv_cancel x (by norm_num)

lemma msOf_nonneg {x : Int} (h : 0 ≤ x) : 0 ≤ Duration.msOf x :=
  Int.tdiv_nonneg h (by norm_num)

lemma msOf_zero : Duration.msOf 0 = 0 := rfl

lemma msOf_small {x : Int} (h0 : 0 ≤ x) (h1 : x < 1000000) :
    Duration.msOf x = 0 :=
  Int.tdiv_eq_zero_of_lt h0 h1

/-- CrawlDelay in closed form: the nested millisecond round-trips cancel
and the result is the maximum of the three millisecond counts, scaled
back to nanoseconds. -/
lemma crawlDelay_eq (r : Crawlingrules) (rnd : Int) :
    CrawlDelay r rnd =
      max (Duration.msOf r.lastDelay)
        (max (randDelay (Duration.msOf r.fixedDelay) rnd)
          (Duration.msOf (robotsDelayOf r))) * 1000000 := by
  unfold CrawlDelay robotsDelayOf
  cases r.robotsGroups <;> simp [msOf_mul_cancel]

/-- C1 counterexample: with fixedDelay = 0, no robots group (so
robotsDelay = 0) and lastDelay = 0.5 ms — all nonnegative — CrawlDelay
returns 0, which is strictly below lastDelay, refuting the claimed
untruncated floor. -/
theorem crawlDelay_floor_cex :
    0 ≤ exC1.fixedDelay ∧ 0 ≤ robotsDelayOf exC1 ∧ 0 ≤ exC1.lastDelay ∧
    CrawlDelay exC1 0 = 0 ∧ CrawlDelay exC1 0 < exC1.lastDelay := by
  refine ⟨by decide, by decide, by decide, by decide, by decide⟩

/-- C1 amended: for every configuration with fixedDelay ≥ 0,
robotsDelay ≥ 0 and lastDelay ≥ 0 and every drawn random value,
CrawlDelay() is at least robotsDelay truncated to whole milliseconds and
at least lastDelay truncated to whole milliseconds. -/
theorem crawlDelay_floor_ms (r : Crawlingrules) (rnd : Int)
    (hf : 0 ≤ r.fixedDelay) (hr : 0 ≤ robotsDelayOf r)
    (hl : 0 ≤ r.lastDelay) :
    Duration.msOf (robotsDelayOf r) * 1000000 ≤ CrawlDelay r rnd ∧
    Duration.msOf r.lastDelay * 1000000 ≤ CrawlDelay r rnd := by
  rw [crawlDelay_eq]
  constructor
  · exact mul_le_mul_of_nonneg_right
      (le_trans (le_max_right _ _) (le_max_right _ _)) (by norm_num)
  · exact mul_le_mul_of_nonneg_right (le_max_left _ _) (by norm_num)

/-- Witness for the millisecond delay floor at a concrete
configuration: robots crawl-delay 2 ms, fixed delay 500 ms, last delay
700 ms, drawn value 3. -/
theorem crawlDelay_floor_ms_witness :
    Duration.msOf (robotsDelayOf exW1) * 1000000 ≤ CrawlDelay exW1 3 ∧
    Duration.msOf exW1.lastDelay * 1000000 ≤ CrawlDelay exW1 3 :=
  crawlDelay_floor_ms exW1 3 (by decide) (by decide) (by decide)

/-- C8 counterexample: fixedDelay = 0.5 ms is positive, robotsDelay and
lastDelay are zero, yet CrawlDelay (at drawn value 0) is 0, i.e. twice
the result is still below fixedDelay, so the result lies outside
[0.5 × fixedDelay, 1.5 × fixedDelay). -/
theorem jitter_bound_cex :
    0 < exC8.fixedDelay ∧ robotsDelayOf exC8 = 0 ∧ exC8.lastDelay = 0 ∧
    CrawlDelay exC8 0 = 0 ∧ CrawlDelay exC8 0 * 2 < exC8.fixedDelay := by
  refine ⟨by decide, by decide, by decide, by decide, by decide⟩

/-- C8 amended: with robotsDelay = 0 and lastDelay = 0, writing v for
fixedDelay truncated to a millisecond count, CrawlDelay() is 0 when
v = 0, and for v > 0 every possible drawn value 0 ≤ rnd < v puts the
result in the half-open interval from (v tdiv 2) ms up to
(v + v tdiv 2) ms — which is [0.5 × fixedDelay, 1.5 × fixedDelay) when
fixedDelay is a whole, even number of milliseconds, in particular
[250 ms, 750 ms) for the 500 ms default. -/
theorem jitter_bound_ms (r : Crawlingrules) (rnd : Int)
    (hf : 0 ≤ r.fixedDelay) (hr : robotsDelayOf r = 0)
    (hl : r.lastDelay = 0) :
    (Duration.msOf r.fixedDelay = 0 → CrawlDelay r rnd = 0) ∧
    (0 < Duration.msOf r.fixedDelay → 0 ≤ rnd →
      rnd < Duration.msOf r.fixedDelay →
      Int.tdiv (Duration.msOf r.fixedDelay) 2 * 1000000 ≤ CrawlDelay r rnd ∧
      CrawlDelay r rnd <
        (Duration.msOf r.fixedDelay + Int.tdiv (Duration.msOf r.fixedDelay) 2)
          * 1000000) := by
  rw [crawlDelay_eq, hr, hl, msOf_zero]
  constructor
  · intro hv
    rw [hv]
    simp [randDelay]
  · intro hv h0 h1
    have hvz : Duration.msOf r.fixedDelay ≠ 0 := ne_of_gt hv
    have ht : 0 ≤ Int.tdiv (Duration.msOf r.fixedDelay) 2 :=
      Int.tdiv_nonneg (le_of_lt hv) (by norm_num)
    rw [randDelay, if_neg hvz]
    have hw : (0 : Int) ≤ rnd + Int.tdiv (Duration.msOf r.fixedDelay) 2 :=
      add_nonneg h0 ht
    rw [max_eq_left hw, max_eq_right hw]
    have hle : Int.tdiv (Duration.msOf r.fixedDelay) 2 ≤
        rnd + Int.tdiv (Duration.msOf r.fixedDelay) 2 := by omega
    have hlt : rnd + Int.tdiv (Duration.msOf r.fixedDelay) 2 <
        Duration.msOf r.fixedDelay + Int.tdiv (Duration.msOf r.fixedDelay) 2 := by
      omega
    exact ⟨mul_le_mul_of_nonneg_right hle (by norm_num),
      mul_lt_mul_of_pos_right hlt (by norm_num)⟩

/-- Witness for the jitter bound at the 500 ms default fixed delay and
drawn value 100: the result lies in [250 ms, 750 ms). -/
theorem jitter_bound_ms_witness :
    Int.tdiv (Duration.msOf exW8.fixedDelay) 2 * 1000000 ≤ CrawlDelay exW8 100 ∧
    CrawlDelay exW8 100 <
      (Duration.msOf exW8.fixedDelay + Int.tdiv (Duration.msOf exW8.fixedDelay) 2)
        * 1000000 :=
  (jitter_bound_ms exW8 100 (by decide) (by decide) (by decide)).2
    (by decide) (by decide) (by decide)

/-- C10: CrawlDelay always yields a whole number of milliseconds;
replacing each of fixedDelay, the attached group's crawl-delay and
lastDelay by its millisecond truncation leaves the result unchanged;
and a positive input strictly below 1 ms contributes exactly as 0
does, in each of the three positions. -/
theorem crawlDelay_ms_truncation (r : Crawlingrules) (rnd x : Int)
    (g : Group) (h0 : 0 < x) (h1 : x < 1000000) :
    (1000000 ∣ CrawlDelay r rnd) ∧
    CrawlDelay
      { r with
        fixedDelay := Duration.msOf r.fixedDelay * 1000000
        lastDelay := Duration.msOf r.lastDelay * 1000000
        robotsGroups := r.robotsGroups.map
          (fun h => { h with crawlDelay := Duration.msOf h.crawlDelay * 1000000 }) }
      rnd = CrawlDelay r rnd ∧
    CrawlDelay { r with lastDelay := x } rnd =
      CrawlDelay { r with lastDelay := 0 } rnd ∧
    CrawlDelay { r with fixedDelay := x } rnd =
      CrawlDelay { r with fixedDelay := 0 } rnd ∧
    CrawlDelay { r with robotsGroups := some { g with crawlDelay := x } } rnd =
      CrawlDelay { r with robotsGroups := some { g with crawlDelay := 0 } } rnd := by
  have hx : Duration.msOf x = 0 := msOf_small (le_of_lt h0) h1
  refine ⟨?_, ?_, ?_, ?_, ?_⟩
  · rw [crawlDelay_eq]
    exact dvd_mul_left 1000000 _
  · rw [crawlDelay_eq, crawlDelay_eq]
    cases hg : r.robotsGroups <;>
      simp [robotsDelayOf, hg, msOf_mul_cancel]
  · rw [crawlDelay_eq, crawlDelay_eq]
    cases hg : r.robotsGroups <;>
      simp [robotsDelayOf, hg, hx, msOf_zero]
  · rw [crawlDelay_eq, crawlDelay_eq]
    cases hg : r.robotsGroups <;>
      simp [robotsDelayOf, hg, hx, msOf_zero]
  · rw [crawlDelay_eq, crawlDelay_eq]
    simp [robotsDelayOf, hx, msOf_zero]

/-- Witness for millisecond truncation at a concrete configuration,
sub-millisecond input 500000 ns (0.5 ms) and drawn value 3. -/
theorem crawlDelay_ms_truncation_witness :
    (1000000 ∣ CrawlDelay exW1 3) ∧
    CrawlDelay { exW1 with lastDelay := 500000 } 3 =
      CrawlDelay { exW1 with lastDelay := 0 } 3 :=
  ⟨(crawlDelay_ms_truncation exW1 3 500000 ⟨[], "", 0⟩ (by decide) (by decide)).1,
   (crawlDelay_ms_truncation exW1 3 500000 ⟨[], "", 0⟩ (by decide) (by decide)).2.2.1⟩

/-- C2: on a URL not yet recorded, Allowed records the URL under the
base domain key before returning (whatever the decision), and a second
Allowed call on the resulting state returns false and leaves the state
unchanged, so the URL is recorded exactly once. -/
theorem allowed_dedup (r : Crawlingrules) (u : URL)
    (h : r.cache.containsKey r.baseDomain.str u.str = false) :
    (Allowed r u).2.cache = r.cache.set r.baseDomain.str u.str ∧
    Allowed (Allowed r u).2 u = (false, (Allowed r u).2) := by
  have hset : ∀ c : Cache, ∀ d k : String,
      (c.set d k).containsKey d k = true := by
    intro c d k
    simp [Cache.set, Cache.containsKey]
  cases hg : r.robotsGroups <;>
    simp [Allowed, h, hg, hset]

/-- Witness for dedup on a concrete state: empty cache, no robots
group, a URL of the base domain. -/
theorem allowed_dedup_witness :
    (Allowed exR2 exU2).2.cache = exR2.cache.set exR2.baseDomain.str exU2.str ∧
    Allowed (Allowed exR2 exU2).2 exU2 = (false, (Allowed exR2 exU2).2) :=
  allowed_dedup exR2 exU2 (by decide)

/-- C3 counterexample: with the group disallow "/a?" attached and the
in-scope URL path "/a", query "b", the claimed first-evaluation value —
Test on the bare path conjoined with the subdomain check — is true, but
Allowed returns false, because the code tests the request URI "/a?b",
not the path. -/
theorem allowed_path_cex :
    exR3.cache.containsKey exR3.baseDomain.str exU3.str = false ∧
    exR3.robotsGroups = some exG3 ∧
    (exG3.Test exU3.path && subdomain exR3.baseDomain exU3) = true ∧
    (Allowed exR3 exU3).1 = false := by
  refine ⟨by decide, rfl, by decide, by decide⟩

/-- C3 amended: on a URL not yet recorded, Allowed returns the robots
group's Test applied to the URL's request URI (path plus query)
conjoined with the subdomain check when a group is attached, and the
subdomain check alone otherwise; and the subdomain check holds exactly
when the link hostname equals the base hostname or is empty. -/
theorem allowed_first_eval (r : Crawlingrules) (u : URL)
    (h : r.cache.containsKey r.baseDomain.str u.str = false) :
    ((Allowed r u).1 =
      match r.robotsGroups with
      | some g => g.Test u.requestURI && subdomain r.baseDomain u
      | none => subdomain r.baseDomain u) ∧
    (subdomain r.baseDomain u = true ↔
      (u.hostname = r.baseDomain.hostname ∨ u.hostname = "")) := by
  constructor
  · cases hg : r.robotsGroups <;> simp [Allowed, h, hg]
  · simp [subdomain, Bool.or_eq_true, beq_iff_eq]

/-- Witness for the first-evaluation shape on the concrete state with
the disallow "/a?" group attached. -/
theorem allowed_first_eval_witness :
    ((Allowed exR3 exU3).1 =
      match exR3.robotsGroups with
      | some g => g.Test exU3.requestURI && subdomain exR3.baseDomain exU3
      | none => subdomain exR3.baseDomain exU3) ∧
    (subdomain exR3.baseDomain exU3 = true ↔
      (exU3.hostname = exR3.baseDomain.hostname ∨ exU3.hostname = "")) :=
  allowed_first_eval exR3 exU3 (by decide)

/-- C4: on the group with rules disallow "/a" and allow "/a/b", findRule
selects the allow "/a/b" rule for the path "/a/b/c" — the longer
matching literal prefix wins — and Test answers true. -/
theorem findRule_longest_prefix :
    exG4.findRule "/a/b/c" = some ⟨"/a/b", true, none⟩ ∧
    exG4.Test "/a/b/c" = true :=
  ⟨rfl, rfl⟩

/-- C5 counterexample: in the group with rules allow "/" and
disallow "a", the disallow "a" rule matches the path "abc" by literal
prefix, yet findRule still selects the "/" catch-all and Test answers
true — a matching rule of weight ≤ 1 does not override the catch-all. -/
theorem catchall_override_cex :
    ruleMatches ⟨"a", false, none⟩ "abc" = true ∧
    (groupOf [catchAllRule, ⟨"a", false, none⟩]).findRule "abc" =
      some catchAllRule ∧
    (groupOf [catchAllRule, ⟨"a", false, none⟩]).Test "abc" = true :=
  ⟨rfl, rfl, rfl⟩

/-- C5 amended: the group holding only allow "/" selects the catch-all
for every path, with Test true; and adding one other matching rule of
weight at least 2 (pattern-source or literal-path byte length) makes
findRule select that other rule instead of the catch-all, in either rule
order. -/
theorem catchall_rules (path q : String) (other : Rule)
    (hm : ruleMatches other path = true) (hw : 2 ≤ ruleWeight other) :
    ((groupOf [catchAllRule]).findRule q = some catchAllRule ∧
      (groupOf [catchAllRule]).Test q = true) ∧
    (groupOf [catchAllRule, other]).findRule path = some other ∧
    (groupOf [other, catchAllRule]).findRule path = some other := by
  refine ⟨⟨rfl, rfl⟩, ?_, ?_⟩
  · obtain ⟨opath, oallow, opat⟩ := other
    cases opat with
    | some p =>
      have hp : p.matchString path = true := hm
      have hl : 1 < strLen p.src := lt_of_lt_of_le one_lt_two hw
      simp [Group.findRule, groupOf, findRuleAux, catchAllRule, hp, hl]
    | none =>
      have hp : hasPrefix path opath = true := hm
      have hl : 1 < strLen opath := lt_of_lt_of_le one_lt_two hw
      have hl0 : 0 < strLen opath := by omega
      simp [Group.findRule, groupOf, findRuleAux, catchAllRule, hp, hl, hl0]
  · obtain ⟨opath, oallow, opat⟩ := other
    cases opat with
    | some p =>
      have hp : p.matchString path = true := hm
      have hl : 0 < strLen p.src :=
        lt_of_lt_of_le (by norm_num) hw
      have hl1 : ¬ strLen "/" > strLen p.src := by
        have : strLen "/" = 1 := rfl
        omega
      have hnz : ¬ strLen p.src = 0 := by omega
      cases hb : hasPrefix path "/" <;>
        simp [Group.findRule, groupOf, findRuleAux, catchAllRule, hp, hl,
          hb, hl1, hnz]
    | none =>
      have hp : hasPrefix path opath = true := hm
      have hw2 : 2 ≤ strLen opath := hw
      have hne : ¬ opath = "/" := by
        intro he
        rw [he] at hw2
        exact absurd hw2 (by decide)
      have hl : 0 < strLen opath := by omega
      have hl1 : ¬ strLen "/" > strLen opath := by
        have : strLen "/" = 1 := rfl
        omega
      have hnz : ¬ strLen opath = 0 := by omega
      cases hb : hasPrefix path "/" <;>
        simp [Group.findRule, groupOf, findRuleAux, catchAllRule, hp, hl,
          hb, hl1, hne, hnz]

/-- Witness for the catch-all behaviour: any path for the lone
catch-all, and the weight-2 rule disallow "/x" overriding it on the path
"/xy". -/
theorem catchall_rules_witness :
    ((groupOf [catchAllRule]).findRule "/z" = some catchAllRule ∧
      (groupOf [catchAllRule]).Test "/z" = true) ∧
    (groupOf [catchAllRule, ⟨"/x", false, none⟩]).findRule "/xy" =
      some ⟨"/x", false, none⟩ ∧
    (groupOf [⟨"/x", false, none⟩, catchAllRule]).findRule "/xy" =
      some ⟨"/x", false, none⟩ :=
  catchall_rules "/xy" "/z" ⟨"/x", false, none⟩ rfl (by decide)

/-- C9: whenever findRule selects no rule for a path, Test answers true
— the absence of an applicable rule defaults to allow. -/
theorem default_allow_no_rule (g : Group) (path : String)
    (h : g.findRule path = none) : g.Test path = true := by
  unfold Group.Test
  rw [h]

/-- Witness for default-allow: the group disallow "/private" has no rule
applicable to "/public". -/
theorem default_allow_no_rule_witness : exG9.Test "/public" = true :=
  default_allow_no_rule exG9 "/public" rfl

/-- C6: the Go NewFromSettings performs no nil check — on a nil settings
pointer it dereferences settings.UserAgent and panics rather than
returning an error value (its signature has no error result), while the
C port NewWebCrawlerFromSettings checks for NULL and returns NULL to its
caller; in both cases no partially initialized crawler is produced. -/
theorem newFromSettings_nil :
    NewFromSettings none = Except.error GoPanic.nilPointerDereference ∧
    NewWebCrawlerFromSettings none = none :=
  ⟨rfl, rfl⟩

/-- C7: the Go New applies the documented defaults for fetch timeout,
idle timeout, concurrency and politeness delay, but sets UserAgent to
the caller's argument and never mentions MaxDepth, which therefore stays
at the Go zero value 0 (unlimited) although the constant defaultDepth is
declared as 16; the C port NewWebCrawler does install DEFAULT_DEPTH = 16
and the bot-identifier fallback. -/
theorem new_defaults :
    (New "MyAgent/1.0").settings.FetchTimeout = defaultFetchTimeout ∧
    (New "MyAgent/1.0").settings.CrawlTimeout = defaultCrawlTimeout ∧
    (New "MyAgent/1.0").settings.Concurrency = defaultConcurrency ∧
    (New "MyAgent/1.0").settings.PolitenessFixedDelay = defaultPolitenessDelay ∧
    (New "MyAgent/1.0").settings.UserAgent = "MyAgent/1.0" ∧
    (New "MyAgent/1.0").settings.MaxDepth = 0 ∧
    defaultDepth = 16 ∧
    NewWebCrawler (some "MyAgent/1.0") =
      some ⟨⟨"MyAgent/1.0", 10000⟩, ⟨10000, 30000, 8, 16, some "MyAgent/1.0", 500⟩⟩ ∧
    NewWebCrawler none =
      some ⟨⟨DEFAULT_USER_AGENT, 10000⟩, ⟨10000, 30000, 8, 16, some DEFAULT_USER_AGENT, 500⟩⟩ :=
  ⟨rfl, rfl, rfl, rfl, rfl, rfl, rfl, rfl, rfl⟩

end Crawler
